import Mathlib

/-!
Verification development for the zoidberg FCI map builder
(`src/zoidberg/zoidberg.py`).

The file shallowly embeds the three functions of the source module:
`make_maps` (field-line map builder), `write_maps` (grid-file writer) and
`fci_to_vtk` (visualization exporter).  Machine floats are modelled as
rationals.  External collaborators that are code of this repository but not
under `src/` (the grid object `grid.py`, the field-line tracer
`fieldtracer.py`, the progress reporter `progress.py`) are modelled from the
specification, as are external library routines (`np.sqrt`,
`boutdata.input.transform3D`, the `boututils` data file, `gridToVTK`), which
appear as abstract parameters or as explicit key/value stores.
-/

/-- Errors a run of the embedded Python code can raise.  `zeroDivisionError`
models Python raising on `float/0.0`, `tracingError` models the tracer
failing to advance a point, `attributeError` models attribute access on
`None` (such as `bx.shape` when the file has no `bx`), `nameError` models
evaluation of an undefined name, `typeError` models arithmetic on `None`. -/
inductive PyErr : Type
  | zeroDivisionError
  | tracingError
  | attributeError
  | nameError
  | typeError
  deriving DecidableEq

/-- Modelled from the spec: the external Field-Line Tracer
(`fieldtracer.FieldTracer`, repository code outside `src/`).  Given one
starting position `(x, z)` at toroidal angle `y0` and an angle offset `dy`,
it integrates the ODE implied by the field direction and returns the final
`(x, z)` position, or fails with a `TracingError` when it cannot advance the
point. -/
abbrev Tracer : Type := ℚ → ℚ → ℚ → ℚ → Except PyErr (ℚ × ℚ)

/-- Modelled from the spec: the external grid-definition object (`grid.py`,
repository code outside `src/`).  Point counts `nx`, `ny`, `nz`; ordered
coordinate sequences for each axis (modelled as functions from the index,
only indices below the point counts are ever used); uniform step sizes
`delta_x`, `delta_y`, `delta_z`; the major-radius scalar `Rmaj` used only
for the metric term. -/
structure Grid : Type where
  nx : ℕ
  ny : ℕ
  nz : ℕ
  xarray : ℕ → ℚ
  yarray : ℕ → ℚ
  zarray : ℕ → ℚ
  delta_x : ℚ
  delta_y : ℚ
  delta_z : ℚ
  Rmaj : ℚ

/-- Modelled from the spec: the grid invariant — step sizes are strictly
positive; the major radius is positive (it is a physical radius, and the
writer divides by its square). -/
def GridInv (g : Grid) : Prop :=
  0 < g.delta_x ∧ 0 < g.delta_y ∧ 0 < g.delta_z ∧ 0 < g.Rmaj

instance (g : Grid) : Decidable (GridInv g) := by
  unfold GridInv; infer_instance

/-- Modelled from the spec: the external magnetic-field evaluator, a pair of
scalar-field functions over `(x, z, y)` (the argument order used by the
source: `Bxfunc(xarray[i], zarray[k], yarray[j])`). -/
structure MagneticField : Type where
  Bxfunc : ℚ → ℚ → ℚ → ℚ
  Bzfunc : ℚ → ℚ → ℚ → ℚ

/-- A 3-D numpy array: its shape `(d1, d2, d3)` together with the entries,
modelled as a total function on indices (the code only reads indices inside
the shape). -/
structure Arr3S : Type where
  d1 : ℕ
  d2 : ℕ
  d3 : ℕ
  val : ℕ → ℕ → ℕ → ℚ

/-- The maps dictionary produced by `make_maps`: the four 3-D arrays of
fractional grid indices, keyed in the source by the strings
`forward_xt_prime`, `forward_zt_prime`, `backward_xt_prime`,
`backward_zt_prime`. -/
structure Maps : Type where
  forward_xt_prime : Arr3S
  forward_zt_prime : Arr3S
  backward_xt_prime : Arr3S
  backward_zt_prime : Arr3S

/-- Lines 48 and 56-57 of the source: `np.meshgrid(xarray, zarray,
indexing='ij')` followed by `.flatten()` yields, in row-major order, the
list of starting points whose flat position `p = i * nz + k` holds
`(xarray[i], zarray[k])`. -/
def meshPoints (g : Grid) : List (ℚ × ℚ) :=
  (List.range (g.nx * g.nz)).map (fun p => (g.xarray (p / g.nz), g.zarray (p % g.nz)))

/-- The vectorized `field_tracer.follow_field_lines(x_coords, z_coords,
[y0, dy])[1,...]`: the tracer applied to every starting point; the whole
call fails as soon as the tracer cannot advance one of the points. -/
def follow_field_lines (t : Tracer) (pts : List (ℚ × ℚ)) (y0 dy : ℚ) :
    Except PyErr (List (ℚ × ℚ)) :=
  match pts with
  | [] => Except.ok []
  | p :: ps =>
    match t p.1 p.2 y0 dy with
    | Except.error e => Except.error e
    | Except.ok q =>
      match follow_field_lines t ps y0 dy with
      | Except.error e => Except.error e
      | Except.ok qs => Except.ok (q :: qs)

/-- Numpy slice assignment `a[:, j, :] = plane`: replace plane `j` of the
array, keeping every other entry and the shape. -/
def setPlane (a : Arr3S) (j : ℕ) (plane : ℕ → ℕ → ℚ) : Arr3S :=
  { a with val := fun i j2 k => if j2 = j then plane i k else a.val i j2 k }

/-- Lines 60-69 of the source, body of one iteration of the plane loop
without the progress report: trace every starting point forward from
`yarray[j]` by `delta_y`, write the traced positions divided by `delta_x`
(resp. `delta_z`) into plane `j` of the forward arrays, then the same
backward with offset `-delta_y`.  `coords.getD (i * nz + k) (0, 0)` is the
`reshape((nx, nz, 2))` of the flat result. -/
def tracePlane (g : Grid) (t : Tracer) (m : Maps) (j : ℕ) : Except PyErr Maps :=
  match follow_field_lines t (meshPoints g) (g.yarray j) g.delta_y with
  | Except.error e => Except.error e
  | Except.ok fwd =>
    let m1 : Maps :=
      { m with
        forward_xt_prime := setPlane m.forward_xt_prime j
          (fun i k => (fwd.getD (i * g.nz + k) (0, 0)).1 / g.delta_x)
        forward_zt_prime := setPlane m.forward_zt_prime j
          (fun i k => (fwd.getD (i * g.nz + k) (0, 0)).2 / g.delta_z) }
    match follow_field_lines t (meshPoints g) (g.yarray j) (-g.delta_y) with
    | Except.error e => Except.error e
    | Except.ok bwd =>
      Except.ok
        { m1 with
          backward_xt_prime := setPlane m1.backward_xt_prime j
            (fun i k => (bwd.getD (i * g.nz + k) (0, 0)).1 / g.delta_x)
          backward_zt_prime := setPlane m1.backward_zt_prime j
            (fun i k => (bwd.getD (i * g.nz + k) (0, 0)).2 / g.delta_z) }

/-- Line 54 of the source: `float(j)/float(ny-1)`.  Python raises
`ZeroDivisionError` when the float denominator is zero, which happens
exactly when `ny == 1`. -/
def progressFrac (g : Grid) (j : ℕ) : Except PyErr ℚ :=
  if ((g.ny : ℚ) - 1) = 0 then Except.error PyErr.zeroDivisionError
  else Except.ok ((j : ℚ) / ((g.ny : ℚ) - 1))

/-- Lines 53-54 of the source: when not quiet, compute the progress fraction
and report it.  `update_progress` (repository code outside `src/`) is
modelled from the spec as a best-effort observer that never raises, so the
report is recorded by appending the fraction to a log. -/
def progressStep (g : Grid) (quiet : Bool) (log : List ℚ) (j : ℕ) :
    Except PyErr (List ℚ) :=
  if quiet then Except.ok log
  else
    match progressFrac g j with
    | Except.error e => Except.error e
    | Except.ok p => Except.ok (log ++ [p])

/-- One full iteration of the loop at lines 52-69: progress report, then the
forward and backward traces of the plane. -/
def planeStep (g : Grid) (t : Tracer) (quiet : Bool) (st : Maps × List ℚ)
    (j : ℕ) : Except PyErr (Maps × List ℚ) :=
  match progressStep g quiet st.2 j with
  | Except.error e => Except.error e
  | Except.ok log =>
    match tracePlane g t st.1 j with
    | Except.error e => Except.error e
    | Except.ok m => Except.ok (m, log)

/-- The loop `for j in range(ny)` of lines 52-69: iterate `planeStep` over
the plane indices; any raised error aborts the whole loop. -/
def mapsLoop (g : Grid) (t : Tracer) (quiet : Bool) (st : Maps × List ℚ) :
    List ℕ → Except PyErr (Maps × List ℚ)
  | [] => Except.ok st
  | j :: js =>
    match planeStep g t quiet st j with
    | Except.error e => Except.error e
    | Except.ok st2 => mapsLoop g t quiet st2 js

/-- Lines 41-46 of the source: the four arrays `np.zeros((nx, ny, nz))`. -/
def zeroMaps (g : Grid) : Maps :=
  { forward_xt_prime := ⟨g.nx, g.ny, g.nz, fun _ _ _ => 0⟩
    forward_zt_prime := ⟨g.nx, g.ny, g.nz, fun _ _ _ => 0⟩
    backward_xt_prime := ⟨g.nx, g.ny, g.nz, fun _ _ _ => 0⟩
    backward_zt_prime := ⟨g.nx, g.ny, g.nz, fun _ _ _ => 0⟩ }

/-- The map builder `make_maps(grid, magnetic_field, quiet)` of lines 26-78.
The `fieldtracer.FieldTracer(magnetic_field)` object built at line 49 is
repository code outside `src/` and is modelled from the spec as the
per-point tracing function `t`.  The result pairs the returned maps
dictionary with the log of reported progress fractions. -/
def make_maps (g : Grid) (t : Tracer) (quiet : Bool) :
    Except PyErr (Maps × List ℚ) :=
  mapsLoop g t quiet (zeroMaps g, []) (List.range g.ny)

/-- Boolean success test for a fallible run. -/
def isOkE {α : Type} : Except PyErr α → Bool
  | Except.ok _ => true
  | Except.error _ => false

/-- The four map entries of one grid point, bundled so that statements about
all four arrays are single equations. -/
def entryQuad (m : Maps) (i j k : ℕ) : ℚ × ℚ × ℚ × ℚ :=
  (m.forward_xt_prime.val i j k, m.forward_zt_prime.val i j k,
   m.backward_xt_prime.val i j k, m.backward_zt_prime.val i j k)

/-- A value stored in the persisted grid file: an integer scalar, a float
scalar, a 2-D array (with its shape) or a 3-D array. -/
inductive GVal : Type
  | nat (n : ℕ)
  | rat (q : ℚ)
  | arr2 (d1 d2 : ℕ) (f : ℕ → ℕ → ℚ)
  | arr3 (a : Arr3S)

/-- The persisted grid file, modelled as the ordered list of
`f.write(key, value)` calls performed by the writer (the `boututils`
data-file codec is an external library). -/
abbrev GridFile : Type := List (String × GVal)

/-- The grid-file writer `write_maps(grid, magnetic_field, maps, gridfile,
legacy)` of lines 80-141.  Two external numeric library routines appear as
parameters: `sqrt` is `np.sqrt`, and `transform3D` is
`boutdata.input.transform3D`, the one-dimensional discrete Fourier transform
applied to each map on the legacy path.  The result is the written file. -/
def write_maps (g : Grid) (mf : MagneticField) (maps : Maps)
    (sqrt : ℚ → ℚ) (transform3D : Arr3S → Arr3S) (legacy : Bool) : GridFile :=
  let g_22 : ℕ → ℕ → ℚ := fun _ _ => 0 + 1 / g.Rmaj ^ 2
  let Bxy : ℕ → ℕ → ℕ → ℚ := fun i j k =>
    sqrt ((mf.Bxfunc (g.xarray i) (g.zarray k) (g.yarray j)) ^ 2
        + (mf.Bzfunc (g.xarray i) (g.zarray k) (g.yarray j)) ^ 2)
  let totalbx : Arr3S :=
    ⟨g.nx, g.ny, g.nz, fun i j k => mf.Bxfunc (g.xarray i) (g.zarray k) (g.yarray j)⟩
  let totalbz : Arr3S :=
    ⟨g.nx, g.ny, g.nz, fun i j k => mf.Bzfunc (g.xarray i) (g.zarray k) (g.yarray j)⟩
  let ixseps : ℕ := g.nx + 1
  [("nx", GVal.nat g.nx), ("ny", GVal.nat g.ny)]
    ++ (if legacy then [] else [("nz", GVal.nat g.nz)])
    ++ [("dx", GVal.rat g.delta_x), ("dy", GVal.rat g.delta_y),
        ("ixseps1", GVal.nat ixseps), ("ixseps2", GVal.nat ixseps),
        ("g_22", GVal.arr2 g.nx g.ny g_22),
        ("Bxy", GVal.arr2 g.nx g.ny (fun i j => Bxy i j 0)),
        ("bx", GVal.arr3 totalbx), ("bz", GVal.arr3 totalbz)]
    ++ (if legacy then
          [("forward_xt_prime", GVal.arr3 (transform3D maps.forward_xt_prime)),
           ("forward_zt_prime", GVal.arr3 (transform3D maps.forward_zt_prime)),
           ("backward_xt_prime", GVal.arr3 (transform3D maps.backward_xt_prime)),
           ("backward_zt_prime", GVal.arr3 (transform3D maps.backward_zt_prime))]
        else
          [("forward_xt_prime", GVal.arr3 maps.forward_xt_prime),
           ("forward_zt_prime", GVal.arr3 maps.forward_zt_prime),
           ("backward_xt_prime", GVal.arr3 maps.backward_xt_prime),
           ("backward_zt_prime", GVal.arr3 maps.backward_zt_prime)])

/-- Modelled from the spec: the data flow "Map Builder → maps dictionary →
Grid File Writer".  A grid file is written only when the map builder
returned a complete maps dictionary; a failed build propagates its error
and produces no file. -/
def make_and_write (g : Grid) (mf : MagneticField) (t : Tracer) (quiet : Bool)
    (sqrt : ℚ → ℚ) (transform3D : Arr3S → Arr3S) (legacy : Bool) :
    Except PyErr GridFile :=
  match make_maps g t quiet with
  | Except.error e => Except.error e
  | Except.ok r => Except.ok (write_maps g mf r.1 sqrt transform3D legacy)

/-- The data-file read `f.read(key)`: the stored value, or `none` when the
key is absent (the `boututils` codec returns `None` without raising). -/
def readKey (f : GridFile) (k : String) : Option GVal := f.lookup k

/-- Line 154 of the source, `np.ones(bx.shape)`: taking `.shape` of a read
result is an `AttributeError` unless the read produced a 3-D array (in
particular when the key was absent and the read gave `None`). -/
def shapeOf : Option GVal → Except PyErr (ℕ × ℕ × ℕ)
  | some (GVal.arr3 a) => Except.ok (a.d1, a.d2, a.d3)
  | _ => Except.error PyErr.attributeError

/-- Use of a read result as a number: a `TypeError` unless the read produced
a scalar. -/
def getRat : Option GVal → Except PyErr ℚ
  | some (GVal.rat q) => Except.ok q
  | some (GVal.nat n) => Except.ok (n : ℚ)
  | _ => Except.error PyErr.typeError

/-- Use of a read result as a 3-D array: a `TypeError` unless the read
produced one. -/
def getArr3 : Option GVal → Except PyErr Arr3S
  | some (GVal.arr3 a) => Except.ok a
  | _ => Except.error PyErr.typeError

/-- Numpy `np.linspace(a, b, n)`: `n` evenly spaced points from `a` to `b`
inclusive. -/
def linspace (a b : ℚ) (n : ℕ) : List ℚ :=
  if n = 1 then [a]
  else (List.range n).map (fun i => a + (b - a) * (i : ℚ) / ((n : ℚ) - 1))

/-- Scalar multiplication of a numpy array, `a * s`. -/
def scaleArr (a : Arr3S) (s : ℚ) : Arr3S :=
  { a with val := fun i j k => a.val i j k * s }

/-- The data handed to the external `gridToVTK` call at line 171: the three
scaled coordinate axes and the three components of the vector field `B`. -/
structure VtkOut : Type where
  xAxis : List ℚ
  yAxis : List ℚ
  zAxis : List ℚ
  bX : Arr3S
  bY : Arr3S
  bZ : Arr3S

/-- The visualization exporter `fci_to_vtk(infile, outfile, scale)` of lines
144-171.  `have_evtk` is the import-time flag of lines 10-17 (whether the
PyEVTK backend is available); when it is false the function returns at line
147 before touching the input file, modelled as `Except.ok none`.
Otherwise the input file is read and the written VTK data is returned as
`Except.ok (some out)`.  Faithful failure points: `np.ones(bx.shape)` at
line 154 raises `AttributeError` when the file has no `bx` (the `if bx is
None` check at line 156 comes only after that use, so the fallback branch
of lines 157-162 is unreachable; were it reached, it evaluates the
undefined name `indices` at line 159, a `NameError`); `dz = nx*dx / nz` at
line 165 raises `ZeroDivisionError` when `nz == 0`. -/
def fci_to_vtk (have_evtk : Bool) (f : GridFile) (scale : ℚ) :
    Except PyErr (Option VtkOut) :=
  if have_evtk = false then Except.ok none
  else
    let dxv := readKey f "dx"
    let dyv := readKey f "dy"
    let bxv := readKey f "bx"
    match shapeOf bxv with
    | Except.error e => Except.error e
    | Except.ok (nx, ny, nz) =>
      let bzv := readKey f "bz"
      let components : Except PyErr (Arr3S × Arr3S × Arr3S) :=
        if bxv.isNone then
          let _xt := readKey f "forward_xt_prime"
          let _zt := readKey f "forward_zt_prime"
          Except.error PyErr.nameError
        else
          match getArr3 bxv, getArr3 bzv with
          | Except.ok bxa, Except.ok bza =>
            Except.ok (bxa, ⟨bxa.d1, bxa.d2, bxa.d3, fun _ _ _ => 1⟩, bza)
          | Except.error e, _ => Except.error e
          | _, Except.error e => Except.error e
      match components with
      | Except.error e => Except.error e
      | Except.ok (bxa, bya, bza) =>
        match getRat dxv, getRat dyv with
        | Except.ok dx, Except.ok dy =>
          if (nz : ℚ) = 0 then Except.error PyErr.zeroDivisionError
          else
            let dz : ℚ := (nx : ℚ) * dx / (nz : ℚ)
            let x := linspace 0 ((nx : ℚ) * dx) nx
            let y := linspace 0 ((ny : ℚ) * dy) ny
            let z := linspace 0 ((nz : ℚ) * dz) nz
            Except.ok (some
              { xAxis := x.map (fun v => v * scale)
                yAxis := y
                zAxis := z.map (fun v => v * scale)
                bX := scaleArr bxa scale
                bY := bya
                bZ := scaleArr bza scale })
        | Except.error e, _ => Except.error e
        | _, Except.error e => Except.error e

/-- Modelled from the spec: the tracer of a magnetic field whose `Bx` and
`Bz` are zero everywhere.  The ODE implied by the field direction has zero
right-hand side, so its exact solution is constant and every trace returns
its starting point; the spec has the Map Builder treat the tracer's output
as exact. -/
def zeroFieldTracer : Tracer := fun x z _ _ => Except.ok (x, z)

/-- A tracer that cannot advance any point: every call fails with a
`TracingError`. -/
def errTracer : Tracer := fun _ _ _ _ => Except.error PyErr.tracingError

/-- A concrete grid whose x coordinates are offset by one step from the
index-aligned convention: `xarray[i] = (i + 1) * delta_x`. -/
def G1 : Grid :=
  { nx := 1, ny := 1, nz := 1
    xarray := fun i => (i : ℚ) + 1
    yarray := fun _ => 0
    zarray := fun k => (k : ℚ)
    delta_x := 1, delta_y := 1, delta_z := 1, Rmaj := 1 }

/-- A concrete index-aligned grid with a single toroidal plane
(`ny = 1`). -/
def G2 : Grid :=
  { nx := 1, ny := 1, nz := 1
    xarray := fun i => (i : ℚ)
    yarray := fun j => (j : ℚ)
    zarray := fun k => (k : ℚ)
    delta_x := 1, delta_y := 1, delta_z := 1, Rmaj := 1 }

/-- A concrete index-aligned grid with two toroidal planes (`ny = 2`). -/
def G3 : Grid :=
  { nx := 1, ny := 2, nz := 1
    xarray := fun i => (i : ℚ)
    yarray := fun j => (j : ℚ)
    zarray := fun k => (k : ℚ)
    delta_x := 1, delta_y := 1, delta_z := 1, Rmaj := 1 }

/-- The zero magnetic field. -/
def MF0 : MagneticField := { Bxfunc := fun _ _ _ => 0, Bzfunc := fun _ _ _ => 0 }

/-- A concrete input grid file containing `dx`, `dy` and the two forward
maps but no raw field-component array `bx`. -/
def F8 : GridFile :=
  [("dx", GVal.rat 1), ("dy", GVal.rat 1),
   ("forward_xt_prime", GVal.arr3 ⟨1, 1, 1, fun _ _ _ => 0⟩),
   ("forward_zt_prime", GVal.arr3 ⟨1, 1, 1, fun _ _ _ => 0⟩)]

/-- The value written into plane `j` of the forward/backward x-index array
when the tracer returns every starting point unchanged: the starting x
position at flat mesh index `i * nz + k`, divided by `delta_x`. -/
def zeroPlaneX (g : Grid) : ℕ → ℕ → ℚ :=
  fun i k => ((meshPoints g).getD (i * g.nz + k) (0, 0)).1 / g.delta_x

/-- Same as `zeroPlaneX` for the z-index arrays: starting z position divided
by `delta_z`. -/
def zeroPlaneZ (g : Grid) : ℕ → ℕ → ℚ :=
  fun i k => ((meshPoints g).getD (i * g.nz + k) (0, 0)).2 / g.delta_z

/-- The maps part of the plane loop with the progress log erased: the
sequence of forward/backward plane traces alone.  Used to state that the
maps computed by `make_maps` do not depend on the progress-reporting
flag. -/
def mapsOnly (g : Grid) (t : Tracer) (m : Maps) : List ℕ → Except PyErr Maps
  | [] => Except.ok m
  | j :: js =>
    match tracePlane g t m j with
    | Except.error e => Except.error e
    | Except.ok m2 => mapsOnly g t m2 js

/-- Identity index mapping property of a `make_maps` result: at every
in-range grid point, the forward and backward x-index entries equal the
point's own x index and the z-index entries its own z index. -/
def C1Prop (g : Grid) (r : Maps × List ℚ) : Prop :=
  ∀ i j k, i < g.nx → j < g.ny → k < g.nz →
    r.1.forward_xt_prime.val i j k = (i : ℚ) ∧
    r.1.forward_zt_prime.val i j k = (k : ℚ) ∧
    r.1.backward_xt_prime.val i j k = (i : ℚ) ∧
    r.1.backward_zt_prime.val i j k = (k : ℚ)

/-- Progress-reporting property of a `make_maps` result: the progress
callback was invoked exactly `ny` times, with the fractions `j / (ny - 1)`
for `j = 0, …, ny - 1`, in strictly increasing order. -/
def C5Prop (g : Grid) (r : Maps × List ℚ) : Prop :=
  r.2.length = g.ny ∧
  r.2 = (List.range g.ny).map (fun (j : ℕ) => (j : ℚ) / ((g.ny : ℚ) - 1)) ∧
  List.Chain' (fun a b => a < b) r.2

/-- Contents of the derived field arrays written by `write_maps`: `g_22` is
an `(nx, ny)` array whose every entry is `1 / Rmaj ^ 2`; `Bxy` is an
`(nx, ny)` array whose `(i, j)` entry is the field magnitude
`sqrt(Bx(x_i, z_0, y_j)^2 + Bz(x_i, z_0, y_j)^2)` evaluated at the first z
coordinate; `bx` and `bz` are `(nx, ny, nz)` arrays holding the raw field
components at every point. -/
def C7Prop (g : Grid) (mf : MagneticField) (maps : Maps) (sqrt : ℚ → ℚ)
    (transform3D : Arr3S → Arr3S) (legacy : Bool) : Prop :=
  (∃ f, (write_maps g mf maps sqrt transform3D legacy).lookup "g_22"
      = some (GVal.arr2 g.nx g.ny f) ∧ ∀ i j, f i j = 1 / g.Rmaj ^ 2) ∧
  (∃ f, (write_maps g mf maps sqrt transform3D legacy).lookup "Bxy"
      = some (GVal.arr2 g.nx g.ny f) ∧
      ∀ i j, f i j = sqrt ((mf.Bxfunc (g.xarray i) (g.zarray 0) (g.yarray j)) ^ 2
                         + (mf.Bzfunc (g.xarray i) (g.zarray 0) (g.yarray j)) ^ 2)) ∧
  (∃ a, (write_maps g mf maps sqrt transform3D legacy).lookup "bx"
      = some (GVal.arr3 a) ∧ a.d1 = g.nx ∧ a.d2 = g.ny ∧ a.d3 = g.nz ∧
      ∀ i j k, a.val i j k = mf.Bxfunc (g.xarray i) (g.zarray k) (g.yarray j)) ∧
  (∃ a, (write_maps g mf maps sqrt transform3D legacy).lookup "bz"
      = some (GVal.arr3 a) ∧ a.d1 = g.nx ∧ a.d2 = g.ny ∧ a.d3 = g.nz ∧
      ∀ i j k, a.val i j k = mf.Bzfunc (g.xarray i) (g.zarray k) (g.yarray j))

theorem follow_id (t : Tracer)
    (ht : ∀ x z y0 dy, t x z y0 dy = Except.ok (x, z)) :
    ∀ (pts : List (ℚ × ℚ)) (y0 dy : ℚ),
      follow_field_lines t pts y0 dy = Except.ok pts := by
  intro pts y0 dy
  induction pts with
  | nil => rfl
  | cons p ps ih => simp [follow_field_lines, ht, ih]

theorem tracePlane_id (g : Grid) (t : Tracer)
    (ht : ∀ x z y0 dy, t x z y0 dy = Except.ok (x, z)) (m : Maps) (j : ℕ) :
    tracePlane g t m j = Except.ok
      { forward_xt_prime := setPlane m.forward_xt_prime j (zeroPlaneX g)
        forward_zt_prime := setPlane m.forward_zt_prime j (zeroPlaneZ g)
        backward_xt_prime := setPlane m.backward_xt_prime j (zeroPlaneX g)
        backward_zt_prime := setPlane m.backward_zt_prime j (zeroPlaneZ g) } := by
  simp only [tracePlane, follow_id t ht]
  rfl

theorem entryQuad_setPlanes (m : Maps) (a : ℕ) (pX pZ : ℕ → ℕ → ℚ)
    (i j k : ℕ) :
    entryQuad
      { forward_xt_prime := setPlane m.forward_xt_prime a pX
        forward_zt_prime := setPlane m.forward_zt_prime a pZ
        backward_xt_prime := setPlane m.backward_xt_prime a pX
        backward_zt_prime := setPlane m.backward_zt_prime a pZ } i j k =
      if j = a then (pX i k, pZ i k, pX i k, pZ i k) else entryQuad m i j k := by
  by_cases h : j = a <;> simp [entryQuad, setPlane, h]

theorem mapsLoop_id (g : Grid) (t : Tracer)
    (ht : ∀ x z y0 dy, t x z y0 dy = Except.ok (x, z)) (quiet : Bool) :
    ∀ (l : List ℕ) (st r : Maps × List ℚ),
      mapsLoop g t quiet st l = Except.ok r →
      ∀ i j k, entryQuad r.1 i j k =
        if j ∈ l then
          (zeroPlaneX g i k, zeroPlaneZ g i k, zeroPlaneX g i k, zeroPlaneZ g i k)
        else entryQuad st.1 i j k := by
  intro l
  induction l with
  | nil =>
    intro st r h i j k
    simp only [mapsLoop] at h
    cases h
    simp
  | cons a l2 ih =>
    intro st r h i j k
    simp only [mapsLoop] at h
    cases hps : planeStep g t quiet st a with
    | error e => rw [hps] at h; exact absurd h (by simp)
    | ok st2 =>
      rw [hps] at h
      simp only [planeStep] at hps
      cases hq : progressStep g quiet st.2 a with
      | error e => rw [hq] at hps; exact absurd hps (by simp)
      | ok log =>
        rw [hq, tracePlane_id g t ht] at hps
        have hst2 : st2.1 =
            { forward_xt_prime := setPlane st.1.forward_xt_prime a (zeroPlaneX g)
              forward_zt_prime := setPlane st.1.forward_zt_prime a (zeroPlaneZ g)
              backward_xt_prime := setPlane st.1.backward_xt_prime a (zeroPlaneX g)
              backward_zt_prime := setPlane st.1.backward_zt_prime a (zeroPlaneZ g) } := by
          cases hps; rfl
        have h2 := ih st2 r h i j k
        rw [hst2, entryQuad_setPlanes] at h2
        by_cases hj2 : j ∈ l2
        · simp only [List.mem_cons, hj2, or_true, if_true]
          rw [h2, if_pos hj2]
        · by_cases hja : j = a
          · subst hja
            simp only [List.mem_cons, true_or, if_true]
            rw [h2, if_neg hj2, if_pos rfl]
          · have : ¬ j ∈ a :: l2 := by simp [List.mem_cons, hja, hj2]
            rw [if_neg this, h2, if_neg hj2, if_neg hja]

theorem meshPoints_getD (g : Grid) {i k : ℕ} (hi : i < g.nx) (hk : k < g.nz) :
    (meshPoints g).getD (i * g.nz + k) (0, 0) = (g.xarray i, g.zarray k) := by
  have hnz : 0 < g.nz := by omega
  have hlt : i * g.nz + k < g.nx * g.nz := by
    calc i * g.nz + k < i * g.nz + g.nz := by omega
    _ = (i + 1) * g.nz := by ring
    _ ≤ g.nx * g.nz := Nat.mul_le_mul_right _ (by omega)
  have hdiv : (i * g.nz + k) / g.nz = i := by
    rw [mul_comm, Nat.mul_add_div hnz, Nat.div_eq_of_lt hk, add_zero]
  have hmod : (i * g.nz + k) % g.nz = k := by
    rw [mul_comm, Nat.mul_add_mod, Nat.mod_eq_of_lt hk]
  simp [meshPoints, List.getD, List.getElem?_map, List.getElem?_range, hlt,
    hdiv, hmod]

theorem zeroPlaneX_eq (g : Grid) (hdx : g.delta_x ≠ 0)
    (hx : ∀ i, i < g.nx → g.xarray i = (i : ℚ) * g.delta_x)
    {i k : ℕ} (hi : i < g.nx) (hk : k < g.nz) :
    zeroPlaneX g i k = (i : ℚ) := by
  unfold zeroPlaneX
  rw [meshPoints_getD g hi hk]
  simp only
  rw [hx i hi, mul_div_cancel_right₀ _ hdx]

theorem zeroPlaneZ_eq (g : Grid) (hdz : g.delta_z ≠ 0)
    (hz : ∀ k, k < g.nz → g.zarray k = (k : ℚ) * g.delta_z)
    {i k : ℕ} (hi : i < g.nx) (hk : k < g.nz) :
    zeroPlaneZ g i k = (k : ℚ) := by
  unfold zeroPlaneZ
  rw [meshPoints_getD g hi hk]
  simp only
  rw [hz k hk, mul_div_cancel_right₀ _ hdz]

theorem progressFrac_ok (g : Grid) (hny : g.ny ≠ 1) (j : ℕ) :
    progressFrac g j = Except.ok ((j : ℚ) / ((g.ny : ℚ) - 1)) := by
  have h : ((g.ny : ℚ) - 1) ≠ 0 := by
    intro h0
    apply hny
    have h1 : (g.ny : ℚ) = 1 := by linarith
    exact_mod_cast h1
  simp [progressFrac, h]

theorem mapsLoop_log (g : Grid) (t : Tracer) (hny : g.ny ≠ 1) :
    ∀ (l : List ℕ) (st r : Maps × List ℚ),
      mapsLoop g t false st l = Except.ok r →
      r.2 = st.2 ++ l.map (fun (j : ℕ) => (j : ℚ) / ((g.ny : ℚ) - 1)) := by
  intro l
  induction l with
  | nil =>
    intro st r h
    simp only [mapsLoop] at h
    cases h
    simp
  | cons a l2 ih =>
    intro st r h
    simp only [mapsLoop] at h
    cases hps : planeStep g t false st a with
    | error e => rw [hps] at h; exact absurd h (by simp)
    | ok st2 =>
      rw [hps] at h
      cases htr : tracePlane g t st.1 a with
      | error e =>
        simp [planeStep, progressStep, progressFrac_ok g hny, htr] at hps
      | ok m =>
        simp [planeStep, progressStep, progressFrac_ok g hny, htr] at hps
        have h2 := ih st2 r h
        rw [h2, ← hps]
        simp

theorem mapsLoop_proj (g : Grid) (t : Tracer) (hny : g.ny ≠ 1) (q : Bool) :
    ∀ (l : List ℕ) (st : Maps × List ℚ),
      Except.map Prod.fst (mapsLoop g t q st l) = mapsOnly g t st.1 l := by
  intro l
  induction l with
  | nil => intro st; rfl
  | cons a l2 ih =>
    intro st
    have hprog : ∃ log, progressStep g q st.2 a = Except.ok log := by
      cases q with
      | true => exact ⟨st.2, rfl⟩
      | false =>
        exact ⟨st.2 ++ [(a : ℚ) / ((g.ny : ℚ) - 1)],
          by simp [progressStep, progressFrac_ok g hny]⟩
    obtain ⟨log, hlog⟩ := hprog
    cases htr : tracePlane g t st.1 a with
    | error e =>
      simp [mapsLoop, planeStep, hlog, htr, mapsOnly, Except.map]
    | ok m =>
      simp only [mapsLoop, planeStep, hlog, htr, mapsOnly]
      exact ih (m, log)

theorem follow_err (t : Tracer) (y0 dy : ℚ) (p : ℚ × ℚ)
    (he : ∃ e, t p.1 p.2 y0 dy = Except.error e) :
    ∀ (pts : List (ℚ × ℚ)), p ∈ pts →
      ∃ e, follow_field_lines t pts y0 dy = Except.error e := by
  intro pts
  induction pts with
  | nil => intro hp; cases hp
  | cons q ps ih =>
    intro hp
    rcases List.mem_cons.mp hp with h1 | h2
    · obtain ⟨e, he2⟩ := he
      rw [h1] at he2
      exact ⟨e, by simp [follow_field_lines, he2]⟩
    · cases ht : t q.1 q.2 y0 dy with
      | error e => exact ⟨e, by simp [follow_field_lines, ht]⟩
      | ok v =>
        obtain ⟨e, hrec⟩ := ih h2
        exact ⟨e, by simp [follow_field_lines, ht, hrec]⟩

theorem tracePlane_err (g : Grid) (t : Tracer) (j : ℕ)
    (h : (∃ e, follow_field_lines t (meshPoints g) (g.yarray j) g.delta_y
            = Except.error e)
       ∨ (∃ e, follow_field_lines t (meshPoints g) (g.yarray j) (-g.delta_y)
            = Except.error e)) :
    ∀ m, ∃ e, tracePlane g t m j = Except.error e := by
  intro m
  cases hf : follow_field_lines t (meshPoints g) (g.yarray j) g.delta_y with
  | error e => exact ⟨e, by simp [tracePlane, hf]⟩
  | ok fwd =>
    cases hb : follow_field_lines t (meshPoints g) (g.yarray j) (-g.delta_y) with
    | error e => exact ⟨e, by simp [tracePlane, hf, hb]⟩
    | ok bwd =>
      rcases h with ⟨e, he⟩ | ⟨e, he⟩
      · rw [hf] at he; exact absurd he (by simp)
      · rw [hb] at he; exact absurd he (by simp)

theorem planeStep_err (g : Grid) (t : Tracer) (quiet : Bool) (j : ℕ)
    (h : ∀ m, ∃ e, tracePlane g t m j = Except.error e) :
    ∀ st, ∃ e, planeStep g t quiet st j = Except.error e := by
  intro st
  cases hq : progressStep g quiet st.2 j with
  | error e => exact ⟨e, by simp [planeStep, hq]⟩
  | ok log =>
    obtain ⟨e, he⟩ := h st.1
    exact ⟨e, by simp [planeStep, hq, he]⟩

theorem mapsLoop_err (g : Grid) (t : Tracer) (quiet : Bool) (j : ℕ)
    (hstep : ∀ st, ∃ e, planeStep g t quiet st j = Except.error e) :
    ∀ (l : List ℕ), j ∈ l →
      ∀ st, ∃ e, mapsLoop g t quiet st l = Except.error e := by
  intro l
  induction l with
  | nil => intro hj; cases hj
  | cons a l2 ih =>
    intro hj st
    cases hps : planeStep g t quiet st a with
    | error e => exact ⟨e, by simp [mapsLoop, hps]⟩
    | ok st2 =>
      rcases List.mem_cons.mp hj with h1 | h2
      · obtain ⟨e, he⟩ := hstep st
        rw [h1] at he
        rw [hps] at he; exact absurd he (by simp)
      · obtain ⟨e, he⟩ := ih h2 st2
        exact ⟨e, by simp [mapsLoop, hps, he]⟩

/-- Claim C1 (amended): for every grid whose coordinate arrays are
index-aligned with the steps (`xarray[i] = i * delta_x`,
`zarray[k] = k * delta_z`) and every tracer consistent with a magnetic
field whose Bx and Bz are zero everywhere (every trace returns its starting
point), every entry of all four arrays returned by `make_maps` equals the
grid index of its own point at every plane.  The recorded value is the
traced physical position divided by `delta_x` (resp. `delta_z`), so the
alignment hypothesis is needed: without it the zero-field maps are not the
identity (see the counterexample). -/
theorem C1_amended_identity (g : Grid) (t : Tracer) (quiet : Bool)
    (r : Maps × List ℚ) (hinv : GridInv g)
    (ht : ∀ x z y0 dy, t x z y0 dy = Except.ok (x, z))
    (hx : ∀ i, i < g.nx → g.xarray i = (i : ℚ) * g.delta_x)
    (hz : ∀ k, k < g.nz → g.zarray k = (k : ℚ) * g.delta_z)
    (hr : make_maps g t quiet = Except.ok r) :
    C1Prop g r := by
  intro i j k hi hj hk
  have h := mapsLoop_id g t ht quiet (List.range g.ny) (zeroMaps g, []) r hr i j k
  rw [if_pos (List.mem_range.mpr hj)] at h
  have hX := zeroPlaneX_eq g (ne_of_gt hinv.1) hx hi hk
  have hZ := zeroPlaneZ_eq g (ne_of_gt hinv.2.2.1) hz hi hk
  rw [hX, hZ] at h
  unfold entryQuad at h
  simp only [Prod.mk.injEq] at h
  exact ⟨h.1, h.2.1, h.2.2.1, h.2.2.2⟩

/-- Witness for C1 (amended) at the concrete index-aligned grid `G2` and
the zero-field tracer: all hypotheses hold and the returned maps are the
identity index mapping. -/
theorem C1_amended_identity_witness :
    GridInv G2 ∧
    (∀ x z y0 dy : ℚ, zeroFieldTracer x z y0 dy = Except.ok (x, z)) ∧
    (∀ i, i < G2.nx → G2.xarray i = (i : ℚ) * G2.delta_x) ∧
    (∀ k, k < G2.nz → G2.zarray k = (k : ℚ) * G2.delta_z) ∧
    ∃ r, make_maps G2 zeroFieldTracer true = Except.ok r ∧ C1Prop G2 r := by
  refine ⟨by decide, fun x z y0 dy => rfl,
    by intro i _; simp [G2], by intro k _; simp [G2], ?_⟩
  cases h : make_maps G2 zeroFieldTracer true with
  | error e =>
    have hok : isOkE (make_maps G2 zeroFieldTracer true) = true := by decide
    rw [h] at hok
    exact absurd hok (by simp [isOkE])
  | ok r =>
    exact ⟨r, rfl, C1_amended_identity G2 zeroFieldTracer true r (by decide)
      (fun x z y0 dy => rfl) (by intro i _; simp [G2])
      (by intro k _; simp [G2]) h⟩

/-- Counterexample to claim C1 as stated: the grid `G1` satisfies the grid
invariant and its point `(0, 0, 0)` is in range; the tracer of the
everywhere-zero field returns every point unchanged; yet the
`forward_xt_prime` entry at `(0, 0, 0)` is `1`, not the point's own x index
`0`, because `G1.xarray 0 = 1` and the code records the traced physical
position divided by `delta_x`, not the traced displacement. -/
theorem C1_counterexample :
    GridInv G1 ∧ 0 < G1.nx ∧ 0 < G1.ny ∧ 0 < G1.nz ∧
    (make_maps G1 zeroFieldTracer true).toOption.map
      (fun r => r.1.forward_xt_prime.val 0 0 0) = some 1 ∧
    (1 : ℚ) ≠ ((0 : ℕ) : ℚ) := by
  refine ⟨by decide, by decide, by decide, by decide, ?_, by norm_num⟩
  norm_num [make_maps, mapsLoop, planeStep, progressStep, tracePlane,
    follow_field_lines, meshPoints, setPlane, zeroMaps, zeroFieldTracer, G1,
    List.range_succ, List.getD]
  exact ⟨_, ⟨_, rfl⟩, by norm_num⟩

/-- Claim C2: the claim says that with `ny == 1` the progress fraction is
defined as 0 and the division never raises; the code instead evaluates
`float(0)/float(0)` at line 54, which raises `ZeroDivisionError`.  This
theorem evaluates the embedded builder at a concrete `ny = 1` grid with
progress reporting enabled and shows the run aborts with exactly that
error. -/
theorem C2_progress_zero_division :
    G2.ny = 1 ∧
    make_maps G2 zeroFieldTracer false = Except.error PyErr.zeroDivisionError :=
  ⟨rfl, by norm_num [make_maps, mapsLoop, planeStep, progressStep,
    progressFrac, G2]⟩

/-- Claim C3: if the tracer fails on any point of any plane (in the forward
or the backward direction), `make_maps` propagates the failure: it returns
no maps value at all, and the composition with the grid-file writer
produces no file. -/
theorem C3_tracer_failure_aborts (g : Grid) (t : Tracer) (quiet : Bool)
    (j : ℕ) (x z : ℚ) (hj : j < g.ny) (hmem : (x, z) ∈ meshPoints g)
    (herr : (∃ e, t x z (g.yarray j) g.delta_y = Except.error e)
          ∨ (∃ e, t x z (g.yarray j) (-g.delta_y) = Except.error e)) :
    isOkE (make_maps g t quiet) = false ∧
    ∀ (mf : MagneticField) (sqrt : ℚ → ℚ) (transform3D : Arr3S → Arr3S)
      (legacy : Bool),
      isOkE (make_and_write g mf t quiet sqrt transform3D legacy) = false := by
  have hfol : (∃ e, follow_field_lines t (meshPoints g) (g.yarray j) g.delta_y
                  = Except.error e)
            ∨ (∃ e, follow_field_lines t (meshPoints g) (g.yarray j) (-g.delta_y)
                  = Except.error e) := by
    rcases herr with h | h
    · exact Or.inl (follow_err t (g.yarray j) g.delta_y (x, z) h
        (meshPoints g) hmem)
    · exact Or.inr (follow_err t (g.yarray j) (-g.delta_y) (x, z) h
        (meshPoints g) hmem)
  have hstep := planeStep_err g t quiet j (tracePlane_err g t j hfol)
  obtain ⟨e, he⟩ := mapsLoop_err g t quiet j hstep (List.range g.ny)
    (List.mem_range.mpr hj) (zeroMaps g, [])
  constructor
  · unfold make_maps
    rw [he]
    rfl
  · intro mf sq t3 lg
    unfold make_and_write make_maps
    rw [he]
    rfl

/-- Witness for C3 at the concrete grid `G2` and the always-failing tracer:
the failing point is in the mesh of the first plane, and neither maps nor a
grid file are produced. -/
theorem C3_tracer_failure_aborts_witness :
    0 < G2.ny ∧ ((0 : ℚ), (0 : ℚ)) ∈ meshPoints G2 ∧
    (∃ e, errTracer 0 0 (G2.yarray 0) G2.delta_y = Except.error e) ∧
    isOkE (make_maps G2 errTracer true) = false ∧
    isOkE (make_and_write G2 MF0 errTracer true id id false) = false := by
  have h := C3_tracer_failure_aborts G2 errTracer true 0 0 0 (by decide)
    (by decide) (Or.inl ⟨PyErr.tracingError, rfl⟩)
  exact ⟨by decide, by decide, ⟨PyErr.tracingError, rfl⟩, h.1,
    h.2 MF0 id id false⟩

/-- Claim C4: with `legacy = true` the writer omits the key `nz` and stores
each of the four maps transformed by `transform3D` (the external
one-dimensional discrete Fourier transform); with `legacy = false` it
writes `nz` and stores the four maps exactly as computed. -/
theorem C4_legacy_transform (g : Grid) (mf : MagneticField) (maps : Maps)
    (sqrt : ℚ → ℚ) (transform3D : Arr3S → Arr3S) :
    ((write_maps g mf maps sqrt transform3D true).lookup "nz" = none ∧
     (write_maps g mf maps sqrt transform3D true).lookup "forward_xt_prime"
        = some (GVal.arr3 (transform3D maps.forward_xt_prime)) ∧
     (write_maps g mf maps sqrt transform3D true).lookup "forward_zt_prime"
        = some (GVal.arr3 (transform3D maps.forward_zt_prime)) ∧
     (write_maps g mf maps sqrt transform3D true).lookup "backward_xt_prime"
        = some (GVal.arr3 (transform3D maps.backward_xt_prime)) ∧
     (write_maps g mf maps sqrt transform3D true).lookup "backward_zt_prime"
        = some (GVal.arr3 (transform3D maps.backward_zt_prime))) ∧
    ((write_maps g mf maps sqrt transform3D false).lookup "nz"
        = some (GVal.nat g.nz) ∧
     (write_maps g mf maps sqrt transform3D false).lookup "forward_xt_prime"
        = some (GVal.arr3 maps.forward_xt_prime) ∧
     (write_maps g mf maps sqrt transform3D false).lookup "forward_zt_prime"
        = some (GVal.arr3 maps.forward_zt_prime) ∧
     (write_maps g mf maps sqrt transform3D false).lookup "backward_xt_prime"
        = some (GVal.arr3 maps.backward_xt_prime) ∧
     (write_maps g mf maps sqrt transform3D false).lookup "backward_zt_prime"
        = some (GVal.arr3 maps.backward_zt_prime)) :=
  ⟨⟨rfl, rfl, rfl, rfl, rfl⟩, ⟨rfl, rfl, rfl, rfl, rfl⟩⟩

/-- Claim C5: for every grid with `ny > 1`, a completed run of the map
builder with progress reporting enabled invokes the progress callback
exactly `ny` times, with the fractions `0, 1/(ny-1), …, 1`, in strictly
increasing order. -/
theorem C5_progress_fractions (g : Grid) (t : Tracer) (r : Maps × List ℚ)
    (hny : 1 < g.ny) (hr : make_maps g t false = Except.ok r) :
    C5Prop g r := by
  have hne : g.ny ≠ 1 := by omega
  have hlog := mapsLoop_log g t hne (List.range g.ny) (zeroMaps g, []) r hr
  simp only [List.nil_append] at hlog
  refine ⟨by rw [hlog]; simp, hlog, ?_⟩
  rw [hlog, List.chain'_map]
  obtain ⟨m, hm⟩ : ∃ m, g.ny = m + 1 + 1 := ⟨g.ny - 2, by omega⟩
  have hden : (0 : ℚ) < (g.ny : ℚ) - 1 := by
    have h1 : (1 : ℚ) < (g.ny : ℚ) := by exact_mod_cast hny
    linarith
  rw [hm, List.chain'_range_succ]
  intro a ha
  rw [hm] at hden
  rw [div_lt_div_iff_of_pos_right hden]
  exact_mod_cast Nat.lt_succ_self a

/-- Witness for C5 at the concrete grid `G3` with `ny = 2` and the
zero-field tracer: the run succeeds and the progress log is `[0, 1]`. -/
theorem C5_progress_fractions_witness :
    1 < G3.ny ∧
    ∃ r, make_maps G3 zeroFieldTracer false = Except.ok r ∧ C5Prop G3 r := by
  have hexists : ∃ r, make_maps G3 zeroFieldTracer false = Except.ok r := by
    norm_num [make_maps, mapsLoop, planeStep, progressStep, progressFrac,
      tracePlane, follow_field_lines, meshPoints, setPlane, zeroMaps,
      zeroFieldTracer, G3, List.range_succ, List.getD]
  obtain ⟨r, hr⟩ := hexists
  exact ⟨by decide, r, hr,
    C5_progress_fractions G3 zeroFieldTracer r (by decide) hr⟩

/-- Claim C6: for every grid, field, maps and either legacy setting, the
writer stores both separatrix markers `ixseps1` and `ixseps2`, and both
equal `nx + 1`. -/
theorem C6_ixseps_markers (g : Grid) (mf : MagneticField) (maps : Maps)
    (sqrt : ℚ → ℚ) (transform3D : Arr3S → Arr3S) (legacy : Bool) :
    (write_maps g mf maps sqrt transform3D legacy).lookup "ixseps1"
        = some (GVal.nat (g.nx + 1)) ∧
    (write_maps g mf maps sqrt transform3D legacy).lookup "ixseps2"
        = some (GVal.nat (g.nx + 1)) := by
  cases legacy <;> exact ⟨rfl, rfl⟩

/-- Claim C7: for every grid and field (and either legacy setting), the
writer stores `g_22` as an `(nx, ny)` array whose every entry is
`1 / Rmaj ^ 2`, stores `Bxy` as the `(nx, ny)` first z-slice of the field
magnitude `sqrt(Bx^2 + Bz^2)`, and stores `bx`, `bz` as the `(nx, ny, nz)`
arrays of raw field components. -/
theorem C7_field_arrays (g : Grid) (mf : MagneticField) (maps : Maps)
    (sqrt : ℚ → ℚ) (transform3D : Arr3S → Arr3S) (legacy : Bool)
    (_hinv : GridInv g) (_hnz : 0 < g.nz) :
    C7Prop g mf maps sqrt transform3D legacy := by
  cases legacy <;>
    exact ⟨⟨_, rfl, fun i j => by norm_num⟩,
      ⟨_, rfl, fun i j => rfl⟩,
      ⟨_, rfl, rfl, rfl, rfl, fun i j k => rfl⟩,
      ⟨_, rfl, rfl, rfl, rfl, fun i j k => rfl⟩⟩

/-- Witness for C7 at the concrete grid `G3`, the zero field, the identity
in place of the external square root and Fourier transform, and the
non-legacy path. -/
theorem C7_field_arrays_witness :
    GridInv G3 ∧ 0 < G3.nz ∧ C7Prop G3 MF0 (zeroMaps G3) id id false :=
  ⟨by decide, by decide,
    C7_field_arrays G3 MF0 (zeroMaps G3) id id false (by decide) (by decide)⟩

/-- Claim C8: the claim says that for an input grid file without `bx` the
exporter derives the vector field from the forward maps and completes
without error; the code instead evaluates `np.ones(bx.shape)` at line 154
before the `if bx is None` check at line 156 and raises `AttributeError`
(and the fallback itself would evaluate the undefined name `indices` at
line 159).  This theorem evaluates the embedded exporter on the concrete
file `F8`, which has `dx`, `dy` and both forward maps but no `bx`, and
shows the run aborts with exactly that error. -/
theorem C8_missing_bx_crash :
    F8.lookup "bx" = none ∧
    fci_to_vtk true F8 5 = Except.error PyErr.attributeError :=
  ⟨rfl, rfl⟩

/-- Claim C9: whenever the visualization backend is unavailable, the
exporter returns immediately with no error and no output, for every input
file (in particular without depending on, or reading, its contents) and
every scale. -/
theorem C9_no_backend_noop (f : GridFile) (scale : ℚ) :
    fci_to_vtk false f scale = Except.ok none := rfl

/-- Counterexample to claim C10 as stated: at the concrete grid `G2` with
`ny = 1` and the zero-field tracer, the run with `quiet = true` returns
maps while the run with `quiet = false` aborts with `ZeroDivisionError`
from the progress fraction, so the results of the two runs (with the
progress log erased) differ. -/
theorem C10_counterexample :
    Except.map Prod.fst (make_maps G2 zeroFieldTracer true)
      ≠ Except.map Prod.fst (make_maps G2 zeroFieldTracer false) := by
  intro h
  have h2 : make_maps G2 zeroFieldTracer false
      = Except.error PyErr.zeroDivisionError := by
    norm_num [make_maps, mapsLoop, planeStep, progressStep, progressFrac, G2]
  rw [h2] at h
  cases h3 : make_maps G2 zeroFieldTracer true with
  | error e =>
    have hok : isOkE (make_maps G2 zeroFieldTracer true) = true := by decide
    rw [h3] at hok
    exact absurd hok (by simp [isOkE])
  | ok r =>
    rw [h3] at h
    exact absurd h (by simp [Except.map])

/-- Claim C10 (amended): for every grid with `ny ≠ 1`, every tracer and any
two settings of the quiet flag, the two runs of `make_maps` agree after
erasing the progress log: suppressing or varying progress reporting never
changes the computed maps (nor success or failure).  The restriction
`ny ≠ 1` is forced by the counterexample: at `ny = 1` the progress
division of line 54 raises only when reporting is enabled. -/
theorem C10_amended_noninterference (g : Grid) (t : Tracer) (q1 q2 : Bool)
    (hny : g.ny ≠ 1) :
    Except.map Prod.fst (make_maps g t q1)
      = Except.map Prod.fst (make_maps g t q2) := by
  unfold make_maps
  rw [mapsLoop_proj g t hny q1, mapsLoop_proj g t hny q2]

/-- Witness for C10 (amended) at the concrete grid `G3` with `ny = 2` and
the zero-field tracer, comparing the quiet and non-quiet runs. -/
theorem C10_amended_noninterference_witness :
    G3.ny ≠ 1 ∧
    Except.map Prod.fst (make_maps G3 zeroFieldTracer true)
      = Except.map Prod.fst (make_maps G3 zeroFieldTracer false) :=
  ⟨by decide,
    C10_amended_noninterference G3 zeroFieldTracer true false (by decide)⟩
